import Mathlib

/-!
Verification model of the CMapper Job Execution & Scheduling Engine
(`Backend.py`): the `ModuleRunner` job table, the `ScheduleRunner` tick /
run-now / pipeline logic, and the `_mask_sensitive` / `_serialize_schedule`
masking helpers.  Python dicts are modelled as association lists with
replace-or-append update (Python dict assignment semantics), JSON values as
an inductive `Json` type, wall-clock times as natural numbers, and each
`with self.lock:` block of a supervising thread as one atomic state
transition.  Thread spawning (`threading.Thread(...).start()`) is modelled
by recording the spawned unit of work in a `pending` list: the spawning
call returns without any of the thread body's state updates having run.
-/

set_option autoImplicit false

/-- JSON-like values, as handled by the Python backend (`json` module). -/
inductive Json where
  | null
  | bool (b : Bool)
  | num (n : Int)
  | str (s : String)
  | arr (items : List Json)
  | obj (fields : List (String × Json))

/-- Key lookup in a Python dict modelled as an association list
(`d.get(k)`). -/
def lookupA {β : Type} : List (String × β) → String → Option β
  | [], _ => none
  | (k', v') :: rest, k => if k' = k then some v' else lookupA rest k

/-- Dict assignment `d[k] = v`: replace the value in place if the key is
present, otherwise append (Python insertion-order semantics). -/
def setA {β : Type} : List (String × β) → String → β → List (String × β)
  | [], k, v => [(k, v)]
  | (k', v') :: rest, k, v =>
      if k' = k then (k, v) :: rest else (k', v') :: setA rest k v

/-- In-place mutation of the value stored under a key, when present
(`d[k]["f"] = x` on a record known to exist; no-op when absent). -/
def updateA {β : Type} : List (String × β) → String → (β → β) → List (String × β)
  | [], _, _ => []
  | (k', v') :: rest, k, f =>
      if k' = k then (k', f v') :: rest else (k', v') :: updateA rest k f

/-- Dict `d.pop(k, None)`: remove the entry for a key. -/
def eraseA {β : Type} : List (String × β) → String → List (String × β)
  | [], _ => []
  | (k', v') :: rest, k => if k' = k then rest else (k', v') :: eraseA rest k

@[simp] theorem lookupA_nil {β : Type} (k : String) : lookupA ([] : List (String × β)) k = none := rfl

theorem lookupA_setA_self {β : Type} (l : List (String × β)) (k : String) (v : β) :
    lookupA (setA l k v) k = some v := by
  induction l with
  | nil => simp [setA, lookupA]
  | cons hd tl ih =>
      by_cases h : hd.1 = k
      · simp [setA, lookupA, h]
      · simpa [setA, lookupA, h] using ih

theorem lookupA_setA_ne {β : Type} (l : List (String × β)) (k k' : String) (v : β)
    (h : k' ≠ k) : lookupA (setA l k' v) k = lookupA l k := by
  induction l with
  | nil => simp [setA, lookupA, h]
  | cons hd tl ih =>
      by_cases h2 : hd.1 = k'
      · simp [setA, lookupA, h2, h]
      · simp [setA, lookupA, h2]
        split <;> simp_all [lookupA]

/-- Python `str.lower()` on a key, character by character. -/
def lowerStr (s : String) : String := ⟨s.data.map Char.toLower⟩

/-- Sensitive key test from `_mask_sensitive` (`Backend.py` line 477):
`key.lower() in ("password", "pass", "secret", "token", "api_key")`. -/
def isSensitiveKey (k : String) : Bool :=
  ["password", "pass", "secret", "token", "api_key"].contains (lowerStr k)

mutual
/-- `_mask_sensitive` (`Backend.py` lines 472-484): recursively walk dicts
and lists; any value stored under a sensitive key is replaced wholesale by
the fixed mask string; other values are masked recursively. -/
def maskSensitive : Json → Json
  | .obj fields => .obj (maskFields fields)
  | .arr items => .arr (maskItems items)
  | j => j

/-- Dict branch of `_mask_sensitive`. -/
def maskFields : List (String × Json) → List (String × Json)
  | [] => []
  | (k, v) :: rest =>
      match isSensitiveKey k with
      | true => (k, Json.str "********") :: maskFields rest
      | false => (k, maskSensitive v) :: maskFields rest

/-- List branch of `_mask_sensitive`. -/
def maskItems : List Json → List Json
  | [] => []
  | j :: rest => maskSensitive j :: maskItems rest
end

/-- Holds when a value is exactly the fixed mask string. -/
def isMaskVal : Json → Bool
  | .str s => s = "********"
  | _ => false

mutual
/-- Checker for the spec property: at every nesting depth, every value
stored under a sensitive key equals the fixed mask. -/
def allSensitiveMasked : Json → Bool
  | .obj fields => allFieldsMasked fields
  | .arr items => allItemsMasked items
  | _ => true

/-- Dict branch of `allSensitiveMasked`. -/
def allFieldsMasked : List (String × Json) → Bool
  | [] => true
  | (k, v) :: rest =>
      match isSensitiveKey k with
      | true => isMaskVal v && allFieldsMasked rest
      | false => allSensitiveMasked v && allFieldsMasked rest

/-- List branch of `allSensitiveMasked`. -/
def allItemsMasked : List Json → Bool
  | [] => true
  | j :: rest => allSensitiveMasked j && allItemsMasked rest
end

mutual
/-- After `_mask_sensitive`, no plaintext survives under a sensitive key at
any nesting depth. -/
theorem maskSensitive_masked : ∀ j : Json, allSensitiveMasked (maskSensitive j) = true
  | .null => rfl
  | .bool _ => rfl
  | .num _ => rfl
  | .str _ => rfl
  | .arr items => by
      simpa [maskSensitive, allSensitiveMasked] using maskItems_masked items
  | .obj fields => by
      simpa [maskSensitive, allSensitiveMasked] using maskFields_masked fields

/-- Dict branch of `maskSensitive_masked`. -/
theorem maskFields_masked : ∀ fs : List (String × Json), allFieldsMasked (maskFields fs) = true
  | [] => rfl
  | (k, v) :: rest => by
      cases h : isSensitiveKey k with
      | true => simp [maskFields, allFieldsMasked, h, isMaskVal, maskFields_masked rest]
      | false => simp [maskFields, allFieldsMasked, h, maskSensitive_masked v, maskFields_masked rest]

/-- List branch of `maskSensitive_masked`. -/
theorem maskItems_masked : ∀ js : List Json, allItemsMasked (maskItems js) = true
  | [] => rfl
  | j :: rest => by
      simp [maskItems, allItemsMasked, maskSensitive_masked j, maskItems_masked rest]
end

/-- One entry of `running_modules` or `module_results` (`ModuleRunner`,
`Backend.py` lines 797-1004).  Both tables hold Python dicts with different
key sets, so every field other than `status` is optional; `none` models an
absent key.  Wall-clock timestamps (`start_time`, `completed_at`) and the
per-job `log_file` path carry no information the verified claims mention
and are omitted. -/
structure StatusRec where
  module_id : Option String := none
  status : String
  progress : Option Nat := none
  output : Option Json := none
  error : Option String := none

/-- State of a `ModuleRunner`: the `running_modules` and `module_results`
dicts plus the spawned-but-not-yet-started supervising threads
(`threading.Thread(target=module_thread)` handles whose body has not run
yet). -/
structure RunnerState where
  running_modules : List (String × StatusRec) := []
  module_results : List (String × StatusRec) := []
  pending : List (String × String) := []

/-- Fresh `ModuleRunner.__init__` state. -/
def emptyRunner : RunnerState := {}

/-- How one supervised module execution ends, as seen by `module_thread`
(`Backend.py` lines 809-969): the subprocess returned with an exit code and
captured stdout/stderr, or `subprocess.TimeoutExpired` fired, or an
unexpected exception hit the supervising logic itself after `reached`
progress updates (0 = only the creation block ran, 1 = also the 25 update,
2 = also the 75 update). -/
inductive Outcome where
  | proc (exitCode : Int) (stdout stderr : String)
  | timeout
  | exc (msg : String) (reached : Fin 3)

/-- Lock block at `Backend.py` lines 814-821: create the job record with
status `running`, progress `0`. -/
def stCreate (tid mid : String) (st : RunnerState) : RunnerState :=
  { st with running_modules := (setA st.running_modules tid
      { module_id := some mid, status := "running", progress := some 0 }) }

/-- Lock blocks at lines 855-856 and 896-897: bump progress. -/
def stProgress (tid : String) (p : Nat) (st : RunnerState) : RunnerState :=
  { st with running_modules := (updateA st.running_modules tid
      (fun r => { r with progress := some p })) }

/-- `json.loads(result.stdout.strip())`, falling back to
`{"message": result.stdout.strip()}` on `json.JSONDecodeError`
(lines 900-921).  The JSON parser itself is external; it is passed in as
an oracle `parse`. -/
def parseWrap (parse : String → Option Json) (stdout : String) : Json :=
  match parse stdout.trim with
  | some j => j
  | none => .obj [("message", .str stdout.trim)]

/-- Lock block at lines 903-911 / 913-921 (exit code 0): store a
`completed` result record and mirror the output onto the running record. -/
def stComplete (tid : String) (out : Json) (st : RunnerState) : RunnerState :=
  { st with
      module_results := (setA st.module_results tid
        { status := "completed", output := some out }),
      running_modules := (updateA st.running_modules tid
        (fun r => { r with output := some out })) }

/-- Lock block at lines 923-929 (nonzero exit code): store a `failed`
result record carrying the captured stderr.  The running record is not
touched here. -/
def stFail (tid stderrTxt : String) (st : RunnerState) : RunnerState :=
  { st with module_results := (setA st.module_results tid
      { status := "failed", error := some stderrTxt }) }

/-- Lock block at lines 932-936 (reached on both the exit-0 and the
nonzero-exit path): unconditionally set the running record to status
`completed`, progress `100`. -/
def stFinal (tid : String) (st : RunnerState) : RunnerState :=
  { st with running_modules := (updateA st.running_modules tid
      (fun r => { r with status := "completed", progress := some 100 })) }

/-- `except subprocess.TimeoutExpired` handler (lines 951-955): running
record gets status `timeout`, progress `100`; no result record. -/
def stTimeout (tid : String) (st : RunnerState) : RunnerState :=
  { st with running_modules := (updateA st.running_modules tid
      (fun r => { r with status := "timeout", progress := some 100 })) }

/-- Generic `except Exception` handler (lines 956-961): running record gets
status `error`, the exception message, progress `100`; no result record. -/
def stError (tid msg : String) (st : RunnerState) : RunnerState :=
  { st with running_modules := (updateA st.running_modules tid
      (fun r => { r with status := "error", error := some msg, progress := some 100 })) }

/-- The sequence of atomic (lock-guarded) state updates performed by
`module_thread` for a given outcome, in source order. -/
def threadSteps (tid mid : String) (parse : String → Option Json) :
    Outcome → List (RunnerState → RunnerState)
  | .proc exitCode stdout stderrTxt =>
      [stCreate tid mid, stProgress tid 25, stProgress tid 75] ++
      (if exitCode = 0 then [stComplete tid (parseWrap parse stdout)]
       else [stFail tid stderrTxt]) ++
      [stFinal tid]
  | .timeout => [stCreate tid mid, stProgress tid 25, stTimeout tid]
  | .exc msg reached =>
      [stCreate tid mid] ++
      (if 1 ≤ reached.val then [stProgress tid 25] else []) ++
      (if 2 ≤ reached.val then [stProgress tid 75] else []) ++
      [stError tid msg]

/-- Apply a list of atomic updates in order. -/
def runSteps (fs : List (RunnerState → RunnerState)) (st : RunnerState) : RunnerState :=
  fs.foldl (fun s f => f s) st

/-- Intermediate states after each atomic update. -/
def statesAfter : List (RunnerState → RunnerState) → RunnerState → List RunnerState
  | [], _ => []
  | f :: fs, st => f st :: statesAfter fs (f st)

/-- `ModuleRunner.run_module` (lines 805-976): generate a thread id (the
`uuid4` prefix, passed in as `tid`), spawn the supervising thread, and
return the id immediately.  No table is touched before the spawned thread
itself runs. -/
def runModule (tid mid : String) (st : RunnerState) : String × RunnerState :=
  (tid, { st with pending := st.pending ++ [(tid, mid)] })

/-- `ModuleRunner.get_module_status` (lines 978-985): the running record if
present, else the result record, else `None`. -/
def getModuleStatus (st : RunnerState) (tid : String) : Option StatusRec :=
  match lookupA st.running_modules tid with
  | some r => some r
  | none => lookupA st.module_results tid

/-- `ModuleRunner.cleanup_thread` (lines 987-996): pop the job from both
tables. -/
def cleanupThread (tid : String) (st : RunnerState) : RunnerState :=
  { st with
      running_modules := eraseA st.running_modules tid,
      module_results := eraseA st.module_results tid }

/-- `ModuleRunner.get_all_status` (lines 998-1004). -/
def getAllStatus (st : RunnerState) : List String × List String :=
  (st.running_modules.map (fun kv => kv.1), st.module_results.map (fun kv => kv.1))

/-- All job records observable through `get_module_status` over the course
of one supervised execution started on a fresh runner. -/
def observedRecs (tid mid : String) (parse : String → Option Json) (o : Outcome) :
    List StatusRec :=
  (emptyRunner :: statesAfter (threadSteps tid mid parse o) emptyRunner).filterMap
    (fun st => getModuleStatus st tid)

/-- Pairwise non-decreasing check on a list of naturals. -/
def nondecreasing : List Nat → Bool
  | [] => true
  | [_] => true
  | a :: b :: rest => decide (a ≤ b) && nondecreasing (b :: rest)

/-- C7 (counterexample): `run_module` returns the job id as soon as the
supervising thread is spawned, but the job record is created by the
thread's own first lock block; before that block runs,
`get_module_status` on the returned id yields `None` (HTTP 404
"Thread not found"), refuting "by the time submit returns its id,
getStatus(jobId) already returns that record rather than NotFound". -/
theorem c7_counterexample :
    getModuleStatus (runModule "t1" "m1" emptyRunner).2 "t1" = none := rfl

/-- C7 (amended): `run_module` returns the generated job id immediately and
without waiting (it touches neither table), and the spawned supervising
thread's first lock block creates the record with status `running` and
progress `0`, after which `get_module_status` returns it. -/
theorem c7_amended (tid mid : String) (st : RunnerState) :
    (runModule tid mid st).1 = tid ∧
    (runModule tid mid st).2.running_modules = st.running_modules ∧
    (runModule tid mid st).2.module_results = st.module_results ∧
    getModuleStatus (stCreate tid mid (runModule tid mid st).2) tid =
      some { module_id := some mid, status := "running", progress := some 0 } := by
  refine ⟨rfl, rfl, rfl, ?_⟩
  simp [getModuleStatus, stCreate, runModule, lookupA_setA_self]

/-- Final runner state of a job whose module process exited with code 1 and
stderr "boom", on a fresh runner. -/
def c2state : RunnerState :=
  runSteps (threadSteps "t1" "m1" (fun _ => none) (.proc 1 "" "boom")) emptyRunner

/-- C2 (code bug evaluated at the failing input): after a nonzero-exit run,
`module_results` holds the intended `failed` record with the captured
stderr, but the final lock block of `module_thread` unconditionally stamps
the `running_modules` record `completed`, and `get_module_status` prefers
`running_modules` — so the observable status is `completed` with no error
field, never `failed`. -/
theorem c2_failing_eval :
    getModuleStatus c2state "t1" =
      some { module_id := some "m1", status := "completed", progress := some 100 } ∧
    lookupA c2state.module_results "t1" =
      some { status := "failed", error := some "boom" } :=
  ⟨rfl, rfl⟩

/-- C5: when the module process exits with code 0, the observable job
record reaches status `completed` with progress `100`, and its output is
the parsed stdout when `json.loads` succeeds, else the stripped stdout
wrapped as a one-field `message` object (`parseWrap`); a parse failure
never makes the job fail. -/
theorem c5_exit_zero_completed (tid mid stdout stderrTxt : String)
    (parse : String → Option Json) :
    getModuleStatus (runSteps (threadSteps tid mid parse (.proc 0 stdout stderrTxt)) emptyRunner) tid =
      some { module_id := some mid, status := "completed", progress := some 100,
             output := some (parseWrap parse stdout) } := by
  simp [threadSteps, runSteps, stCreate, stProgress, stComplete, stFinal,
    getModuleStatus, setA, updateA, lookupA, emptyRunner]

/-- C6: over every outcome path of a supervised execution (completed,
failed, timeout, error), the sequence of progress values observable
through `get_module_status` is non-decreasing and drawn from
`{0, 25, 75, 100}`, and every observable record whose status is not
`running` carries progress `100` (so in particular the first observed
non-running status comes together with progress 100). -/
theorem c6_progress_lifecycle (tid mid : String) (parse : String → Option Json)
    (o : Outcome) :
    nondecreasing ((observedRecs tid mid parse o).map (fun r => r.progress.getD 0)) = true ∧
    (observedRecs tid mid parse o).all
      (fun r => [0, 25, 75, 100].contains (r.progress.getD 0)) = true ∧
    (observedRecs tid mid parse o).all
      (fun r => r.status == "running" || r.progress.getD 0 == 100) = true := by
  cases o with
  | proc exitCode stdout stderrTxt =>
      by_cases hec : exitCode = 0 <;>
        simp [observedRecs, statesAfter, threadSteps, hec, stCreate, stProgress,
          stComplete, stFail, stFinal, getModuleStatus, setA, updateA, lookupA,
          emptyRunner, nondecreasing]
  | timeout =>
      simp [observedRecs, statesAfter, threadSteps, stCreate, stProgress,
        stTimeout, getModuleStatus, setA, updateA, lookupA, emptyRunner,
        nondecreasing]
  | exc msg reached =>
      by_cases h1 : 1 ≤ reached.val <;> by_cases h2 : 2 ≤ reached.val <;>
        simp [observedRecs, statesAfter, threadSteps, h1, h2, stCreate,
          stProgress, stError, getModuleStatus, setA, updateA, lookupA,
          emptyRunner, nondecreasing]

/-- C10: when the supervising thread ends through the timeout path or the
unexpected-exception path, `module_results` is never written (for any
starting state it is left unchanged); on a fresh runner the terminal
record lives only in `running_modules`, so `get_all_status` reports the
job under `running` and never under `completed`, and once the deferred
`cleanup_thread` evicts it, `get_module_status` returns `None`. -/
theorem c10_no_result_entry (tid mid : String) (parse : String → Option Json)
    (o : Outcome) (h : o = .timeout ∨ ∃ msg reached, o = .exc msg reached) :
    (∀ st : RunnerState,
        (runSteps (threadSteps tid mid parse o) st).module_results = st.module_results) ∧
    (getAllStatus (runSteps (threadSteps tid mid parse o) emptyRunner)).1 = [tid] ∧
    (getAllStatus (runSteps (threadSteps tid mid parse o) emptyRunner)).2 = [] ∧
    (∃ r, getModuleStatus (runSteps (threadSteps tid mid parse o) emptyRunner) tid = some r ∧
        (r.status = "timeout" ∨ r.status = "error")) ∧
    getModuleStatus
        (cleanupThread tid (runSteps (threadSteps tid mid parse o) emptyRunner)) tid = none := by
  rcases h with h | ⟨msg, reached, h⟩ <;> subst h
  · refine ⟨fun st => ?_, ?_, ?_, ?_, ?_⟩ <;>
      simp [threadSteps, runSteps, stCreate, stProgress, stTimeout, getAllStatus,
        getModuleStatus, cleanupThread, setA, updateA, eraseA, lookupA, emptyRunner]
  · by_cases h1 : 1 ≤ reached.val <;> by_cases h2 : 2 ≤ reached.val <;>
      (refine ⟨fun st => ?_, ?_, ?_, ?_, ?_⟩ <;>
        simp [threadSteps, h1, h2, runSteps, stCreate, stProgress, stError,
          getAllStatus, getModuleStatus, cleanupThread, setA, updateA, eraseA,
          lookupA, emptyRunner])

/-- C10 witness: the timeout path at a concrete job. -/
theorem c10_no_result_entry_witness :
    (∀ st : RunnerState,
        (runSteps (threadSteps "t9" "m9" (fun _ => none) .timeout) st).module_results = st.module_results) ∧
    (getAllStatus (runSteps (threadSteps "t9" "m9" (fun _ => none) .timeout) emptyRunner)).1 = ["t9"] ∧
    (getAllStatus (runSteps (threadSteps "t9" "m9" (fun _ => none) .timeout) emptyRunner)).2 = [] ∧
    (∃ r, getModuleStatus (runSteps (threadSteps "t9" "m9" (fun _ => none) .timeout) emptyRunner) "t9" = some r ∧
        (r.status = "timeout" ∨ r.status = "error")) ∧
    getModuleStatus
        (cleanupThread "t9" (runSteps (threadSteps "t9" "m9" (fun _ => none) .timeout) emptyRunner)) "t9" = none :=
  c10_no_result_entry "t9" "m9" (fun _ => none) .timeout (Or.inl rfl)

/-- `jsonify(status)` for a job record: the record's present fields as a
JSON object (`/api/modules/status/<thread_id>`, `Backend.py` lines
1692-1705).  No masking is applied on this path. -/
def recToJson (r : StatusRec) : Json :=
  .obj ((match r.module_id with | some m => [("module_id", Json.str m)] | none => []) ++
    [("status", Json.str r.status)] ++
    (match r.progress with | some p => [("progress", Json.num p)] | none => []) ++
    (match r.output with | some j => [("output", j)] | none => []) ++
    (match r.error with | some e => [("error", Json.str e)] | none => []))

/-- Body of the job-status endpoint on a hit: the stored record serialized
as-is. -/
def statusPayload (st : RunnerState) (tid : String) : Option Json :=
  (getModuleStatus st tid).map recToJson

/-- Parse oracle for a module that printed a JSON object containing a
plaintext password. -/
def c3parse : String → Option Json := fun _ => some (.obj [("password", .str "hunter2")])

/-- Final runner state after that module exited 0 on a fresh runner. -/
def c3state : RunnerState :=
  runSteps (threadSteps "t3" "m3" c3parse (.proc 0 "out" "")) emptyRunner

/-- C3 (counterexample): the job-status payload returned across the
external boundary by `/api/modules/status/<thread_id>` is the stored
record serialized without `_mask_sensitive`, so a module output containing
a `password` key crosses the boundary in plaintext. -/
theorem c3_counterexample :
    allSensitiveMasked ((statusPayload c3state "t3").getD Json.null) = false := by
  have h1 : isSensitiveKey "module_id" = false := by decide
  have h2 : isSensitiveKey "status" = false := by decide
  have h3 : isSensitiveKey "progress" = false := by decide
  have h4 : isSensitiveKey "output" = false := by decide
  have h5 : isSensitiveKey "password" = true := by decide
  simp [c3state, runSteps, threadSteps, stCreate, stProgress, stComplete, stFinal,
    statusPayload, getModuleStatus, setA, updateA, lookupA, emptyRunner, recToJson,
    parseWrap, c3parse, allSensitiveMasked, allFieldsMasked, allItemsMasked,
    isMaskVal, h1, h2, h3, h4, h5]

/-- One entry of a schedule's `modules` list as stored in settings
(`_normalize_schedule_payload` output) and as read by
`ScheduleRunner._run_site_pipeline` (`Backend.py` lines 1086-1104):
either not a dict, or a dict without `module_id`, or a proper step. -/
inductive Entry where
  | invalid
  | noId
  | step (module_id : String) (parameters : List (String × Json))
      (credential_profile : Option String)

/-- A step entry as the JSON value stored in settings. -/
def entryToJson : Entry → Json
  | .invalid => Json.null
  | .noId => Json.obj []
  | .step mid ps cp =>
      .obj ([("module_id", .str mid), ("parameters", .obj ps)] ++
        (match cp with | some c => [("credential_profile", .str c)] | none => []))

/-- A credential profile from `settings["module_credentials"]`. -/
structure Profile where
  name : String
  username : String
  password : String

/-- First profile with the requested name among the module's configured
profiles (`module_creds.get(module_id, [])` plus the matching loop,
`Backend.py` lines 1098-1103). -/
def lookupProfile (creds : List (String × List Profile)) (mid pname : String) :
    Option Profile :=
  match lookupA creds mid with
  | none => none
  | some profiles => profiles.find? (fun p => p.name == pname)

/-- Credential substitution performed by `_run_site_pipeline` on one step:
when a (non-empty) `credential_profile` is present and resolves in the
credential store read at run time, overwrite `username` and `password` in
the step's parameters; on a miss, leave the parameters untouched.  The
profile reference itself lives outside the parameters dict and is never
copied into it — but nothing removes a `credential_profile` key that the
parameters dict itself already contains. -/
def substituteCreds (creds : List (String × List Profile)) (mid : String)
    (ps : List (String × Json)) : Option String → List (String × Json)
  | none => ps
  | some p =>
      if p.isEmpty then ps
      else
        match lookupProfile creds mid p with
        | none => ps
        | some prof =>
            setA (setA ps "username" (.str prof.username)) "password" (.str prof.password)

/-- Terminal job states the pipeline's polling loop breaks on
(`Backend.py` line 1109). -/
inductive Terminal where
  | completed
  | failed
  | error
  | timeout

/-- The status string of a terminal state. -/
def Terminal.toStr : Terminal → String
  | .completed => "completed"
  | .failed => "failed"
  | .error => "error"
  | .timeout => "timeout"

/-- The config dict submitted to `module_runner.run_module` for one step:
`{"site_name": site_name, "parameters": params}` (line 1104). -/
structure Config where
  site_name : String
  parameters : List (String × Json)

/-- One per-step result entry `{"module_id": ..., "status": ...}`. -/
structure StepResult where
  module_id : String
  status : String

/-- Result of running one site pipeline: the per-step results, the module
invocations actually submitted (in submission order), and the advanced
invocation counter used to index the status oracle. -/
structure PipeOut where
  results : List StepResult
  invocations : List (String × Config)
  counter : Nat

/-- `ScheduleRunner._run_site_pipeline` (`Backend.py` lines 1080-1115).
For each step in schedule order: skip non-dict entries and entries with no
`module_id`; record a `missing` result without submitting when the module
is unknown; otherwise substitute credentials, submit one invocation, and
block-poll until the job reaches a terminal state.  The eventual terminal
status of the `k`-th submitted invocation is supplied by the oracle
`oracle k`, abstracting the fixed-interval polling loop; the pipeline
records it and continues with the next step whatever it is.  The
inter-step `time.sleep(delay)` has no state effect and is omitted. -/
def runSitePipeline (creds : List (String × List Profile)) (avail : List String)
    (site : String) (oracle : Nat → Terminal) : List Entry → Nat → PipeOut
  | [], k => ⟨[], [], k⟩
  | .invalid :: rest, k => runSitePipeline creds avail site oracle rest k
  | .noId :: rest, k => runSitePipeline creds avail site oracle rest k
  | .step mid ps cp :: rest, k =>
      if avail.contains mid then
        let cfg : Config := ⟨site, substituteCreds creds mid ps cp⟩
        let out := runSitePipeline creds avail site oracle rest (k + 1)
        ⟨⟨mid, (oracle k).toStr⟩ :: out.results, (mid, cfg) :: out.invocations, out.counter⟩
      else
        let out := runSitePipeline creds avail site oracle rest k
        ⟨⟨mid, "missing"⟩ :: out.results, out.invocations, out.counter⟩

/-- Result of a sequential fan-out over sites. -/
structure SchedOut where
  perSite : List (String × List StepResult)
  invocations : List (String × Config)
  counter : Nat

/-- Sequential branch of `ScheduleRunner._run_schedule` (`Backend.py`
lines 1153-1158): one full site pipeline at a time, in site order. -/
def runScheduleSeq (creds : List (String × List Profile)) (avail : List String)
    (oracle : Nat → Terminal) (steps : List Entry) : List String → Nat → SchedOut
  | [], k => ⟨[], [], k⟩
  | site :: rest, k =>
      let p := runSitePipeline creds avail site oracle steps k
      let s := runScheduleSeq creds avail oracle steps rest p.counter
      ⟨(site, p.results) :: s.perSite, p.invocations ++ s.invocations, s.counter⟩

/-- The module id of a step entry (`""` for entries without one). -/
def entryId : Entry → String
  | .step mid _ _ => mid
  | _ => ""

/-- The entry is a dict with a `module_id` that the module catalog knows. -/
def isKnownStep (avail : List String) : Entry → Bool
  | .step mid _ _ => avail.contains mid
  | _ => false

/-- The config a given step is submitted with. -/
def configFor (creds : List (String × List Profile)) (site : String) : Entry → Config
  | .step mid ps cp => ⟨site, substituteCreds creds mid ps cp⟩
  | _ => ⟨site, []⟩

/-- Concatenation of the lists produced per element, in order. -/
def concatMapL {α β : Type} : List α → (α → List β) → List β
  | [], _ => []
  | a :: rest, f => f a ++ concatMapL rest f

/-- A persisted schedule definition as normalized by
`_normalize_schedule_payload` and stored in `settings["module_schedules"]`
(`Backend.py` lines 486-539). -/
structure Schedule where
  id : String
  name : String := ""
  enabled : Bool := true
  scope_mode : String := "selected"
  scope_sites : List String := []
  site_run_mode : String := "sequential"
  delay_between_modules_sec : Nat := 0
  repeat_interval_min : Nat := 0
  modules : List Entry := []

/-- In-memory runtime state of one schedule (`ScheduleRunner.state`
entries, `Backend.py` lines 1040-1046).  Times are naturals.  Missing dict
keys read through `.get` behave as these defaults, so the empty dict
created by `setdefault(schedule_id, {})` in `run_now` / `_run_schedule` is
modelled by the same default record. -/
structure SchedState where
  status : String := "idle"
  next_run_at : Option Nat := none
  last_run_at : Option Nat := none
  last_result : Option Json := none
  running : Bool := false

/-- State of the `ScheduleRunner`: the per-schedule runtime dict plus the
spawned `_run_schedule` threads that have not yet executed their first
lock block. -/
structure SRState where
  state : List (String × SchedState) := []
  pending : List Schedule := []

/-- Fresh `ScheduleRunner.__init__` state. -/
def emptySR : SRState := {}

/-- `self.state.setdefault(schedule_id, ...)`. -/
def ensureState (st : SRState) (sid : String) : SRState :=
  match lookupA st.state sid with
  | some _ => st
  | none => { st with state := setA st.state sid {} }

/-- The runtime state recorded for a schedule id (defaults when absent). -/
def stateOf (st : SRState) (sid : String) : SchedState :=
  (lookupA st.state sid).getD {}

/-- Python `name.strip()` falsiness: the string has no non-whitespace
character. -/
def isBlank (s : String) : Bool := s.data.all Char.isWhitespace

/-- `ScheduleRunner._resolve_sites` (`Backend.py` lines 1071-1078): `all`
mode yields every site name known to the inventory (passed in as
`allSites`); `selected` mode yields the literal list filtered to non-blank
strings. -/
def resolveSites (allSites : List String) (sched : Schedule) : List String :=
  if lowerStr sched.scope_mode = "all" then allSites
  else sched.scope_sites.filter (fun n => !(isBlank n))

/-- Processing of one schedule definition inside `ScheduleRunner._tick`
(`Backend.py` lines 1030-1064): skip entries without an id; ensure a
runtime state exists; a disabled schedule is stamped `disabled` with
`next_run_at` cleared and is never spawned; a schedule whose state has
`running=True` is skipped; otherwise, when `next_run_at` is set and due,
a `_run_schedule` thread is spawned (recorded in `pending`) — note the
tick does not itself set `running` or clear `next_run_at`. -/
def tickOne (now : Nat) (sched : Schedule) (st : SRState) : SRState :=
  if sched.id.isEmpty then st
  else
    let st1 := ensureState st sched.id
    if !sched.enabled then
      { st1 with state := (updateA st1.state sched.id
          (fun s => { s with status := "disabled", next_run_at := none, running := false })) }
    else if (stateOf st1 sched.id).running then st1
    else
      match (stateOf st1 sched.id).next_run_at with
      | some t => if t ≤ now then { st1 with pending := st1.pending ++ [sched] } else st1
      | none => st1

/-- `ScheduleRunner._tick` over the freshly read schedule list, including
the final pruning of runtime states whose id disappeared. -/
def tick (now : Nat) (schedules : List Schedule) (st : SRState) : SRState :=
  let ids := (schedules.filter (fun s => !s.id.isEmpty)).map (fun s => s.id)
  let st2 := schedules.foldl (fun acc s => tickOne now s acc) st
  { st2 with state := st2.state.filter (fun kv => ids.contains kv.1) }

/-- `ScheduleRunner.run_now` (`Backend.py` lines 1177-1190): reject when
the schedule has no id, when no sites resolve, or when the runtime state
already has `running=True`; otherwise set `next_run_at` to now, spawn a
`_run_schedule` thread, and report acceptance.  The spawned thread — the
only thing that sets `running=True` — has not run yet when `run_now`
returns. -/
def runNow (now : Nat) (allSites : List String) (sched : Schedule) (st : SRState) :
    Bool × SRState :=
  if sched.id.isEmpty then (false, st)
  else if (resolveSites allSites sched).isEmpty then (false, st)
  else
    let st1 := ensureState st sched.id
    if (stateOf st1 sched.id).running then (false, st1)
    else
      (true, { st1 with
        state := (updateA st1.state sched.id (fun s => { s with next_run_at := some now })),
        pending := st1.pending ++ [sched] })

/-- First lock block of `ScheduleRunner._run_schedule` (`Backend.py`
lines 1117-1124): mark the schedule `running`. -/
def runScheduleStart (sched : Schedule) (st : SRState) : SRState :=
  if sched.id.isEmpty then st
  else
    let st1 := ensureState st sched.id
    { st1 with state := (updateA st1.state sched.id
        (fun s => { s with status := "running", running := true })) }

/-- Execute the first pending spawned `_run_schedule` thread up to its
first lock block. -/
def startFirstPending (st : SRState) : SRState :=
  match st.pending with
  | [] => st
  | sched :: rest => runScheduleStart sched { st with pending := rest }

/-- The `modules` list of a serialized schedule payload:
`_serialize_schedule` applies `_mask_sensitive` to it (`Backend.py`
line 556). -/
def serializeScheduleModules (sched : Schedule) : Json :=
  maskSensitive (.arr (sched.modules.map entryToJson))

/-- The `last_result` field of a serialized schedule payload:
`_mask_sensitive(state["last_result"])` when present, else `None`
(`Backend.py` line 555). -/
def serializeLastResult (s : SchedState) : Json :=
  match s.last_result with
  | some j => maskSensitive j
  | none => Json.null

/-- C3 (amended): `_mask_sensitive` leaves no plaintext under a sensitive
key (`password`/`pass`/`secret`/`token`/`api_key`, case-insensitively) at
any nesting depth, and serialized schedule payloads pass both their
`modules` list and their `last_result` through it; job-status and job-log
payloads, however, are returned without masking (see the C3
counterexample). -/
theorem c3_amended (j : Json) (sched : Schedule) (s : SchedState) :
    allSensitiveMasked (maskSensitive j) = true ∧
    allSensitiveMasked (serializeScheduleModules sched) = true ∧
    allSensitiveMasked (serializeLastResult s) = true := by
  refine ⟨maskSensitive_masked j, maskSensitive_masked _, ?_⟩
  cases h : s.last_result with
  | none => simp [serializeLastResult, h, allSensitiveMasked]
  | some j2 => simpa [serializeLastResult, h] using maskSensitive_masked j2

/-- Shape of one site pipeline when every step is a well-formed entry
referencing a known module: one invocation per step in step order, one
result entry per step in step order, and the oracle counter advanced once
per step. -/
theorem runSitePipeline_spec (creds : List (String × List Profile)) (avail : List String)
    (site : String) (oracle : Nat → Terminal) :
    ∀ (steps : List Entry) (k : Nat), steps.all (isKnownStep avail) = true →
    (runSitePipeline creds avail site oracle steps k).invocations =
        steps.map (fun e => (entryId e, configFor creds site e)) ∧
    (runSitePipeline creds avail site oracle steps k).results.map (fun r => r.module_id) =
        steps.map entryId ∧
    (runSitePipeline creds avail site oracle steps k).results.length = steps.length ∧
    (runSitePipeline creds avail site oracle steps k).counter = k + steps.length := by
  intro steps
  induction steps with
  | nil => intro k h; simp [runSitePipeline]
  | cons e rest ih =>
      intro k h
      rw [List.all_cons, Bool.and_eq_true] at h
      obtain ⟨he, hrest⟩ := h
      cases e with
      | invalid => simp [isKnownStep] at he
      | noId => simp [isKnownStep] at he
      | step mid ps cp =>
          have hmem : mid ∈ avail := by
            have : avail.contains mid = true := by simpa [isKnownStep] using he
            simpa using this
          obtain ⟨h1, h2, h3, h4⟩ := ih (k + 1) hrest
          refine ⟨?_, ?_, ?_, ?_⟩ <;>
            (simp [runSitePipeline, hmem, h1, h2, h3, h4, entryId, configFor]; try omega)

/-- C4: for a schedule whose steps are all well-formed and reference known
modules, the sequential fan-out submits exactly one module invocation per
(site, step) pair — `N·M` invocations in total, site-major, preserving
step order within each site — and produces, per site, one
`{module_id, status}` result entry per step in step order.  The statement
holds for every oracle of per-step terminal statuses, so a step that
terminates `failed` or `timeout` never suppresses a later step of the same
pipeline. -/
theorem c4_sequential_fanout (creds : List (String × List Profile)) (avail : List String)
    (oracle : Nat → Terminal) (sites : List String) (steps : List Entry) (k : Nat)
    (h : steps.all (isKnownStep avail) = true) :
    (runScheduleSeq creds avail oracle steps sites k).invocations =
      concatMapL sites (fun site => steps.map (fun e => (entryId e, configFor creds site e))) ∧
    (runScheduleSeq creds avail oracle steps sites k).invocations.length =
      sites.length * steps.length ∧
    (runScheduleSeq creds avail oracle steps sites k).perSite.map
        (fun sr => (sr.1, sr.2.map (fun r => r.module_id))) =
      sites.map (fun site => (site, steps.map entryId)) := by
  have main : ∀ (sites2 : List String) (k2 : Nat),
      (runScheduleSeq creds avail oracle steps sites2 k2).invocations =
        concatMapL sites2 (fun site => steps.map (fun e => (entryId e, configFor creds site e))) ∧
      (runScheduleSeq creds avail oracle steps sites2 k2).perSite.map
          (fun sr => (sr.1, sr.2.map (fun r => r.module_id))) =
        sites2.map (fun site => (site, steps.map entryId)) := by
    intro sites2
    induction sites2 with
    | nil => intro k2; simp [runScheduleSeq, concatMapL]
    | cons site rest ih =>
        intro k2
        obtain ⟨p1, p2, p3, p4⟩ := runSitePipeline_spec creds avail site oracle steps k2 h
        obtain ⟨i1, i2⟩ := ih ((runSitePipeline creds avail site oracle steps k2).counter)
        exact ⟨by simp [runScheduleSeq, concatMapL, p1, i1],
               by simp [runScheduleSeq, p2, i2]⟩
  obtain ⟨m1, m2⟩ := main sites k
  refine ⟨m1, ?_, m2⟩
  rw [m1]
  have hlen : ∀ site : String,
      (steps.map (fun e => (entryId e, configFor creds site e))).length = steps.length := by
    intro site; simp
  clear m1 m2 h
  induction sites with
  | nil => simp [concatMapL]
  | cons site rest ih => simp [concatMapL, hlen, ih, Nat.succ_mul]; omega

/-- C4 witness: two sites, one known step. -/
theorem c4_sequential_fanout_witness :
    (runScheduleSeq [] ["m"] (fun _ => .completed) [.step "m" [] none] ["A", "B"] 0).invocations =
      concatMapL ["A", "B"]
        (fun site => [Entry.step "m" [] none].map
          (fun e => (entryId e, configFor [] site e))) ∧
    (runScheduleSeq [] ["m"] (fun _ => .completed) [.step "m" [] none] ["A", "B"] 0).invocations.length =
      ["A", "B"].length * [Entry.step "m" [] none].length ∧
    (runScheduleSeq [] ["m"] (fun _ => .completed) [.step "m" [] none] ["A", "B"] 0).perSite.map
        (fun sr => (sr.1, sr.2.map (fun r => r.module_id))) =
      ["A", "B"].map (fun site => (site, [Entry.step "m" [] none].map entryId)) :=
  c4_sequential_fanout [] ["m"] (fun _ => .completed) ["A", "B"] [.step "m" [] none] 0 rfl

theorem lookupA_updateA {β : Type} (l : List (String × β)) (k : String) (f : β → β) :
    lookupA (updateA l k f) k = (lookupA l k).map f := by
  induction l with
  | nil => simp [updateA, lookupA]
  | cons hd tl ih =>
      by_cases h : hd.1 = k
      · simp [updateA, lookupA, h]
      · simpa [updateA, lookupA, h] using ih

/-- Credential store with one profile `P` configured for module `m`. -/
def c8creds : List (String × List Profile) :=
  [("m", [{ name := "P", username := "u", password := "pw" }])]

/-- A step referencing profile `P` whose parameters dict also carries a
literal `credential_profile` key (the format the ad-hoc run endpoint
uses). -/
def c8step : Entry := .step "m" [("credential_profile", .str "P")] (some "P")

/-- C8 (counterexample): the pipeline substitutes `username`/`password`
from the store but strips nothing from the step's own parameters dict, so
a `credential_profile` key sitting inside the parameters reaches the
module verbatim — the literal profile name `P` appears among the
parameters actually sent, refuting "the literal profile name never appears
among the parameters sent to the module". -/
theorem c8_counterexample :
    (runSitePipeline c8creds ["m"] "SiteA" (fun _ => .completed) [c8step] 0).invocations =
      [("m", { site_name := "SiteA",
               parameters := [("credential_profile", Json.str "P"),
                              ("username", Json.str "u"),
                              ("password", Json.str "pw")] })] := rfl

/-- C8 (amended): when a step's `credential_profile` field names a profile
that resolves in the credential store as read at pipeline run time, the
parameters submitted for that step carry `username` and `password` taken
from that store value (the schedule itself stores no credential material,
so nothing is cached at save time), and the profile reference field itself
is never copied into the parameters: a `credential_profile` key appears in
the sent parameters only if the step's own parameters dict already
contained one — the pipeline, unlike the ad-hoc run endpoint, does not
strip such a key. -/
theorem c8_amended (creds : List (String × List Profile)) (mid p site : String)
    (ps : List (String × Json)) (avail : List String) (oracle : Nat → Terminal)
    (k : Nat) (prof : Profile)
    (hp : p.isEmpty = false)
    (hprof : lookupProfile creds mid p = some prof)
    (hav : mid ∈ avail) :
    (runSitePipeline creds avail site oracle [.step mid ps (some p)] k).invocations =
      [(mid, { site_name := site,
               parameters := setA (setA ps "username" (.str prof.username))
                 "password" (.str prof.password) })] ∧
    lookupA (substituteCreds creds mid ps (some p)) "username" =
      some (.str prof.username) ∧
    lookupA (substituteCreds creds mid ps (some p)) "password" =
      some (.str prof.password) ∧
    (lookupA ps "credential_profile" = none →
      lookupA (substituteCreds creds mid ps (some p)) "credential_profile" = none) := by
  have hsub : substituteCreds creds mid ps (some p) =
      setA (setA ps "username" (.str prof.username)) "password" (.str prof.password) := by
    simp [substituteCreds, hp, hprof]
  refine ⟨?_, ?_, ?_, ?_⟩
  · simp [runSitePipeline, hav, hsub]
  · rw [hsub, lookupA_setA_ne _ _ _ _ (by decide), lookupA_setA_self]
  · rw [hsub, lookupA_setA_self]
  · intro hnone
    rw [hsub, lookupA_setA_ne _ _ _ _ (by decide), lookupA_setA_ne _ _ _ _ (by decide), hnone]

/-- C8 witness: concrete store, profile and step. -/
theorem c8_amended_witness :
    (runSitePipeline c8creds ["m"] "SiteB" (fun _ => .completed)
        [.step "m" [] (some "P")] 0).invocations =
      [("m", { site_name := "SiteB",
               parameters := setA (setA [] "username" (.str "u")) "password" (.str "pw") })] ∧
    lookupA (substituteCreds c8creds "m" [] (some "P")) "username" = some (.str "u") ∧
    lookupA (substituteCreds c8creds "m" [] (some "P")) "password" = some (.str "pw") ∧
    (lookupA ([] : List (String × Json)) "credential_profile" = none →
      lookupA (substituteCreds c8creds "m" [] (some "P")) "credential_profile" = none) :=
  c8_amended c8creds "m" "P" "SiteB" [] ["m"] (fun _ => .completed) 0
    { name := "P", username := "u", password := "pw" } rfl rfl (by simp)

theorem lookupA_ensureState (st : SRState) (sid : String) :
    lookupA (ensureState st sid).state sid = some (stateOf st sid) := by
  cases h : lookupA st.state sid with
  | some s => simp [ensureState, h, stateOf]
  | none => simp [ensureState, h, stateOf, lookupA_setA_self]

theorem ensureState_pending (st : SRState) (sid : String) :
    (ensureState st sid).pending = st.pending := by
  cases h : lookupA st.state sid <;> simp [ensureState, h]

theorem ensureState_of_running (st : SRState) (sid : String)
    (h : (stateOf st sid).running = true) : ensureState st sid = st := by
  cases hl : lookupA st.state sid with
  | none => simp [stateOf, hl] at h
  | some s => simp [ensureState, hl]

/-- A schedule with one selected site. -/
def sched1 : Schedule := { id := "s1", scope_sites := ["SiteA"] }

/-- C1 (counterexample): two rapid back-to-back `run_now` calls for the
same idle schedule are BOTH accepted, refuting "exactly one is accepted":
`run_now` checks `state["running"]` but only the spawned `_run_schedule`
thread sets it to `True`, so the second call arriving before that thread
has started still sees `running=False`. -/
theorem c1_counterexample :
    (runNow 0 [] sched1 emptySR).1 = true ∧
    (runNow 0 [] sched1 (runNow 0 [] sched1 emptySR).2).1 = true := ⟨rfl, rfl⟩

/-- C1 (amended): mutual exclusion holds once a spawned run has begun —
for a schedule whose runtime state has `running=true`, the scheduler tick
spawns nothing (and `run_now` is rejected without touching the state);
but because `run_now` does not itself set `running` before spawning, two
back-to-back `run_now` calls that both precede the spawned thread's first
step can both be accepted (see the counterexample). -/
theorem c1_amended (now : Nat) (allSites : List String) (sched : Schedule)
    (st : SRState) (h : (stateOf st sched.id).running = true) :
    (tickOne now sched st).pending = st.pending ∧
    (runNow now allSites sched st).1 = false ∧
    (runNow now allSites sched st).2 = st := by
  have hens := ensureState_of_running st sched.id h
  by_cases hid : sched.id.isEmpty
  · simp [tickOne, runNow, hid]
  · refine ⟨?_, ?_, ?_⟩
    · by_cases hen : sched.enabled
      · simp [tickOne, hid, hen, hens, h]
      · simp [tickOne, hid, hen, hens]
    · by_cases hres : (resolveSites allSites sched).isEmpty
      · simp [runNow, hid, hres]
      · simp [runNow, hid, hres, hens, h]
    · by_cases hres : (resolveSites allSites sched).isEmpty
      · simp [runNow, hid, hres]
      · simp [runNow, hid, hres, hens, h]

/-- Runtime state in which schedule `s1` is currently executing. -/
def busySR : SRState := { state := [("s1", { status := "running", running := true })] }

/-- C1 witness: the amended mutual-exclusion guarantee at a concrete busy
schedule. -/
theorem c1_amended_witness :
    (tickOne 5 sched1 busySR).pending = busySR.pending ∧
    (runNow 5 [] sched1 busySR).1 = false ∧
    (runNow 5 [] sched1 busySR).2 = busySR :=
  c1_amended 5 [] sched1 busySR rfl

/-- A disabled schedule with one selected site. -/
def schedDis : Schedule := { id := "s2", enabled := false, scope_sites := ["SiteA"] }

/-- C9 (counterexample): `run_now` never consults `enabled`, so a disabled
schedule is accepted and its spawned `_run_schedule` thread marks the
runtime state `running` — a trigger path on which a schedule with
`enabled=false` does transition to `running`, refuting "neither via the
scheduler tick nor via any other trigger path". -/
theorem c9_counterexample :
    schedDis.enabled = false ∧
    (runNow 0 [] schedDis emptySR).1 = true ∧
    (stateOf (startFirstPending (runNow 0 [] schedDis emptySR).2) "s2").status = "running" ∧
    (stateOf (startFirstPending (runNow 0 [] schedDis emptySR).2) "s2").running = true :=
  ⟨rfl, rfl, rfl, rfl⟩

/-- C9 (amended): the scheduler tick never spawns a run for a disabled
schedule and, while disabled, stamps its runtime state `disabled` with
`next_run_at` cleared and `running=false`; the `run_now` trigger path,
however, does not check `enabled` (see the counterexample). -/
theorem c9_amended (now : Nat) (sched : Schedule) (st : SRState)
    (hdis : sched.enabled = false) (hid : sched.id.isEmpty = false) :
    (stateOf (tickOne now sched st) sched.id).status = "disabled" ∧
    (stateOf (tickOne now sched st) sched.id).next_run_at = none ∧
    (stateOf (tickOne now sched st) sched.id).running = false ∧
    (tickOne now sched st).pending = st.pending := by
  have hls := lookupA_ensureState st sched.id
  refine ⟨?_, ?_, ?_, ?_⟩ <;>
    simp [tickOne, hid, hdis, stateOf, lookupA_updateA, hls, ensureState_pending]

/-- C9 witness: the amended disabled-schedule guarantee at a concrete
disabled schedule. -/
theorem c9_amended_witness :
    (stateOf (tickOne 3 schedDis emptySR) "s2").status = "disabled" ∧
    (stateOf (tickOne 3 schedDis emptySR) "s2").next_run_at = none ∧
    (stateOf (tickOne 3 schedDis emptySR) "s2").running = false ∧
    (tickOne 3 schedDis emptySR).pending = emptySR.pending :=
  c9_amended 3 schedDis emptySR rfl rfl
